import Mathlib

/-
Verification development for the pydongo object-document-mapping layer.

The Python sources are embedded shallowly:

* Python runtime values that can appear in documents, queries and update
  payloads are modelled by the mutual inductive family `PyVal` / `PyList` /
  `PyDict` below.  A `PyDict` is an insertion-ordered association list, which
  is exactly the observable behaviour of a CPython `dict`.
* Pure functions (`pydongo/utils/serializer.py`, `pydongo/utils/annotations.py`,
  the expression classes) become Lean functions on that family.
* Methods that mutate their receiver are modelled by explicit state passing:
  the function returns the new state of every object the method could have
  written to.
* Python exceptions are modelled with `Except String` / `Option`.

All definitions are executable, so every theorem can be checked on concrete
inputs by evaluation.
-/

set_option autoImplicit false

/-! ## Python values

`PyVal.pdate d` models a `datetime.date` (as an ordinal day count),
`PyVal.pdatetime d t` models a `datetime.datetime` (ordinal day plus time of
day); the two constructors are distinct because CPython's `type()` of a
`datetime` is `datetime.datetime`, never `datetime.date`, and the serializer
dispatch in `pydongo/utils/serializer.py` keys `HANDLER_MAPPING` on the exact
type.  `PyVal.pobj` models a pydantic `BaseModel` instance (class name plus
field mapping). -/

mutual

inductive PyVal where
  | pint (n : Int)
  | pfloat (q : Rat)
  | pbool (b : Bool)
  | pstr (s : String)
  | pdate (d : Nat)
  | pdatetime (d t : Nat)
  | puuid (n : Nat)
  | pnone
  | plist (xs : PyList)
  | pdict (entries : PyDict)
  | pobj (className : String) (fields : PyDict)
  deriving DecidableEq

inductive PyList where
  | nil
  | cons (v : PyVal) (rest : PyList)
  deriving DecidableEq

inductive PyDict where
  | nil
  | cons (k : String) (v : PyVal) (rest : PyDict)
  deriving DecidableEq

end

namespace PyDict

/-- Dictionary lookup, `d[k]` / `d.get(k)`: first entry with the given key. -/
def lookup (k : String) : PyDict → Option PyVal
  | .nil => none
  | .cons k' v rest => if k' = k then some v else rest.lookup k

/-- CPython `d[k] = v`: overwrite the value in place if the key is present
(keeping its position), otherwise append the new entry at the end. -/
def set (d : PyDict) (k : String) (v : PyVal) : PyDict :=
  match d with
  | .nil => .cons k v .nil
  | .cons k' v' rest => if k' = k then .cons k v rest else .cons k' v' (rest.set k v)

/-- CPython `d.update(other)`: `set` every entry of `other` into `d`, in
iteration order of `other`. -/
def update (d : PyDict) : PyDict → PyDict
  | .nil => d
  | .cons k v rest => (d.set k v).update rest

/-- Concatenation of two disjoint-key dictionaries (used to assemble the
`build_kwargs` result out of its conditionally present chunks). -/
def append (d : PyDict) (e : PyDict) : PyDict :=
  match d with
  | .nil => e
  | .cons k v rest => .cons k v (rest.append e)

/-- Convert a plain list of pairs into a `PyDict` (notation helper for
concrete dictionary literals). -/
def ofList : List (String × PyVal) → PyDict
  | [] => .nil
  | (k, v) :: rest => .cons k v (ofList rest)

def isEmpty : PyDict → Bool
  | .nil => true
  | .cons _ _ _ => false

theorem lookup_set : ∀ (d : PyDict) (k : String) (v : PyVal) (k' : String),
    (d.set k v).lookup k' = if k = k' then some v else d.lookup k'
  | .nil, k, v, k' => by
    simp [set, lookup]
  | .cons a b rest, k, v, k' => by
    by_cases hak : a = k
    · subst hak
      by_cases h : a = k' <;> simp [set, lookup, h]
    · by_cases h : a = k'
      · have hkk : ¬ k = k' := fun hk => hak (by rw [h, hk])
        simp [set, lookup, hak, h, hkk, Ne.symm hkk]
      · simp [set, lookup, hak, h, lookup_set rest k v k']

theorem lookup_append : ∀ (d e : PyDict) (k : String),
    (d.append e).lookup k =
      match d.lookup k with
      | some v => some v
      | none => e.lookup k
  | .nil, e, k => by simp [append, lookup]
  | .cons a b rest, e, k => by
    by_cases h : a = k <;> simp [append, lookup, h, lookup_append rest e k]

end PyDict

namespace PyList

/-- Convert a plain Lean list into a `PyList`. -/
def ofList : List PyVal → PyList
  | [] => .nil
  | v :: rest => .cons v (ofList rest)

end PyList

/-! ## `pydongo/utils/serializer.py`

`HANDLER_MAPPING` registers two non-native scalar types: `datetime.date`
(serialized by `DateSerializer` to a `datetime` at midnight) and `uuid.UUID`
(serialized by `UUIDSerializer` to its string form).

The string form of a UUID is its hexadecimal expansion; the fixed-width
zero padding and the fixed-position hyphens of the RFC form are elided here,
because they are determined by position and removed again by parsing, so they
carry no information: the model keeps the sequence of hexadecimal digits. -/

/-- Value of one lowercase hexadecimal character (inverse of `Nat.digitChar`
on digit values below 16). -/
def hexCharVal (c : Char) : Nat :=
  if c.toNat ≥ 97 then c.toNat - 87 else c.toNat - 48

/-- Hexadecimal string of a natural number, most significant digit first:
the model of Python `str(uuid)`. -/
def uuidStr (n : Nat) : String :=
  ⟨(Nat.digits 16 n).reverse.map Nat.digitChar⟩

/-- Parse a hexadecimal string back to a natural number: the model of the
Python constructor `UUID(string)` (which raises on malformed input; inputs
produced by `uuidStr` are always well formed). -/
def uuidParse (s : String) : Nat :=
  Nat.ofDigits 16 ((s.data.map hexCharVal).reverse)

theorem hexCharVal_digitChar (d : Nat) (h : d < 16) :
    hexCharVal (Nat.digitChar d) = d := by
  interval_cases d <;> rfl

/-- Parsing inverts printing: `UUID(str(u)) == u`. -/
theorem uuidParse_uuidStr (n : Nat) : uuidParse (uuidStr n) = n := by
  unfold uuidParse uuidStr
  simp only [String.data]
  rw [List.map_map, List.map_congr_left, List.map_id, List.reverse_reverse,
    Nat.ofDigits_digits]
  intro a ha
  simp only [Function.comp_apply, List.mem_reverse] at *
  exact hexCharVal_digitChar a (Nat.digits_lt_base (by norm_num) ha)

namespace DateSerializer

/-- `DateSerializer.serialize`: `datetime.combine(value, datetime.min.time())`
turns a calendar date into the datetime at midnight of the same day.  `none`
models the `TypeError` raised when the argument is not a date. -/
def serialize : PyVal → Option PyVal
  | .pdate d => some (.pdatetime d 0)
  | _ => none

/-- `DateSerializer.deserialize`: `value.date()` keeps the date component.
Only a `datetime` has a `.date()` method; on any other value the attribute
access raises (`none`). -/
def deserialize : PyVal → Option PyVal
  | .pdatetime d _t => some (.pdate d)
  | _ => none

end DateSerializer

namespace UUIDSerializer

/-- `UUIDSerializer.serialize`: `str(value)`. -/
def serialize : PyVal → Option PyVal
  | .puuid n => some (.pstr (uuidStr n))
  | _ => none

/-- `UUIDSerializer.deserialize`: `UUID(value)`; raises (`none`) unless the
argument is a string. -/
def deserialize : PyVal → Option PyVal
  | .pstr s => some (.puuid (uuidParse s))
  | _ => none

end UUIDSerializer

/-- Dispatch step shared by `FieldExpression._get_comparative_expression` and
the `serialize` closure of `replace_unserializable_fields`:

`value_class = type(value); if value_class in HANDLER_MAPPING: value =
HANDLER_MAPPING[value_class].serialize(value)`.

The lookup uses the exact runtime type, so only a `date` and a `UUID` are
rewritten (never a `datetime`, a string, or a container), and on those two
types the registered serializer always succeeds. -/
def normalizeValue : PyVal → PyVal
  | .pdate d => .pdatetime d 0
  | .puuid n => .pstr (uuidStr n)
  | v => v

/-- The two rewriting branches of `normalizeValue` agree with the registered
serializers (`HANDLER_MAPPING[date].serialize` / `HANDLER_MAPPING[UUID].serialize`). -/
theorem normalizeValue_eq_handler :
    (∀ d, some (normalizeValue (.pdate d)) = DateSerializer.serialize (.pdate d)) ∧
    (∀ n, some (normalizeValue (.puuid n)) = UUIDSerializer.serialize (.puuid n)) :=
  ⟨fun _ => rfl, fun _ => rfl⟩

/-- Dispatch step of the `deserialize` closure of
`restore_unserializable_fields`: a value whose exact type is registered is
passed to the matching deserializer — which, applied to a raw `date` or a raw
`UUID`, raises (a `date` has no `.date()` attribute and `UUID(uuid)` is a
`TypeError`); a value of any unregistered type is returned untouched. -/
def restoreValue (v : PyVal) : Option PyVal :=
  match v with
  | .pdate d => DateSerializer.deserialize (.pdate d)
  | .puuid n => UUIDSerializer.deserialize (.puuid n)
  | v => some v

mutual

/-- `replace_unserializable_fields(document)`: for each entry, recurse into
sub-dictionaries, map the dispatch step over list/tuple/set values (without
recursing further into their elements), and apply the dispatch step to every
other value. -/
def replace_unserializable_fields : PyDict → PyDict
  | .nil => .nil
  | .cons k v rest => .cons k (replaceEntryValue v) (replace_unserializable_fields rest)

/-- One entry of `replace_unserializable_fields`: the `isinstance` dispatch on
`dict` / `(list, tuple, set)` / scalar. -/
def replaceEntryValue : PyVal → PyVal
  | .pdict d => .pdict (replace_unserializable_fields d)
  | .plist xs => .plist (replaceListElems xs)
  | v => normalizeValue v

/-- The list comprehension `[serialize(element) for element in value]`. -/
def replaceListElems : PyList → PyList
  | .nil => .nil
  | .cons v rest => .cons (normalizeValue v) (replaceListElems rest)

end

mutual

/-- `restore_unserializable_fields(document)`: same traversal as
`replace_unserializable_fields`, applying the deserialize dispatch step;
`none` models an exception escaping from a deserializer. -/
def restore_unserializable_fields : PyDict → Option PyDict
  | .nil => some .nil
  | .cons k v rest => do
    let v' ← restoreEntryValue v
    let rest' ← restore_unserializable_fields rest
    some (.cons k v' rest')

def restoreEntryValue : PyVal → Option PyVal
  | .pdict d => do
    let d' ← restore_unserializable_fields d
    some (.pdict d')
  | .plist xs => do
    let xs' ← restoreListElems xs
    some (.plist xs')
  | v => restoreValue v

def restoreListElems : PyList → Option PyList
  | .nil => some .nil
  | .cons v rest => do
    let v' ← restoreValue v
    let rest' ← restoreListElems rest
    some (.cons v' rest')

end

/-! ## `pydongo/utils/annotations.py`

Type annotations as the resolver sees them.  `Anno.amodel` is a pydantic
`BaseModel` subclass with its `model_fields` (field name, declared
annotation); `Anno.ascalar name` is a plain non-model class such as `str`,
`int` or `float`; `Anno.alist` is `list[T]`; `Anno.adict` is a `dict[...]`
annotation; `Anno.anone` is `NoneType`; `Anno.aunion args` is
`Union[...]` (which is also what `Optional[T]` is at runtime);
`Anno.aannotated inner` is `Annotated[inner, ...]` with the metadata elided
(the resolver discards it by taking `get_args(annotation)[0]`). -/

mutual

inductive Anno where
  | amodel (name : String) (fields : AnnoFields)
  | ascalar (name : String)
  | anone
  | alist (elem : Anno)
  | adict
  | aunion (args : AnnoList)
  | aannotated (inner : Anno)
  deriving DecidableEq

inductive AnnoFields where
  | nil
  | cons (name : String) (ann : Anno) (rest : AnnoFields)
  deriving DecidableEq

inductive AnnoList where
  | nil
  | cons (a : Anno) (rest : AnnoList)
  deriving DecidableEq

end

namespace AnnoFields

/-- Lookup in `model_fields` (gives the declared annotation of one field). -/
def lookup (name : String) : AnnoFields → Option Anno
  | .nil => none
  | .cons n a rest => if n = name then some a else rest.lookup name

end AnnoFields

/-- The test `arg is not type(None)`. -/
def Anno.isNoneType : Anno → Bool
  | .anone => true
  | _ => false

/-- The first member of `non_none_args`, i.e. the first union argument that is
not `NoneType` (`None` when every argument is `NoneType`). -/
def AnnoList.firstNonNone : AnnoList → Option Anno
  | .nil => none
  | .cons a rest => if a.isNoneType then rest.firstNonNone else some a

theorem AnnoList.sizeOf_firstNonNone :
    ∀ {l : AnnoList} {a : Anno}, l.firstNonNone = some a → sizeOf a < sizeOf l
  | .nil, a => by simp [firstNonNone]
  | .cons b rest, a => by
    by_cases h : b.isNoneType
    · intro hfind
      simp only [firstNonNone, if_pos h] at hfind
      have := AnnoList.sizeOf_firstNonNone hfind
      simp only [AnnoList.cons.sizeOf_spec]
      omega
    · intro hfind
      simp only [firstNonNone, if_neg h, Option.some.injEq] at hfind
      subst hfind
      simp only [AnnoList.cons.sizeOf_spec]
      omega

/-- `resolve_annotation` from `pydongo/utils/annotations.py`: strip
`Optional` / `Union` / `Annotated` wrappers recursively.  A `Union` resolves
to its first non-`None` argument.  (When every argument of a union is
`NoneType` the source recurses on the unchanged annotation and would not
terminate; that input cannot be produced by the `typing` module, which never
builds such a union, and the model returns the annotation unchanged there.) -/
def resolveAnno (ann : Anno) : Anno :=
  match ann with
  | .aunion args =>
    match h : args.firstNonNone with
    | some a => resolveAnno a
    | none => .aunion args
  | .aannotated inner => resolveAnno inner
  | a => a
termination_by sizeOf ann
decreasing_by
  · have := AnnoList.sizeOf_firstNonNone h
    simp only [Anno.aunion.sizeOf_spec]
    omega
  · simp only [Anno.aannotated.sizeOf_spec]
    omega

theorem resolveAnno_amodel (n : String) (f : AnnoFields) :
    resolveAnno (.amodel n f) = .amodel n f := by
  simp [resolveAnno]

theorem resolveAnno_ascalar (n : String) :
    resolveAnno (.ascalar n) = .ascalar n := by
  simp [resolveAnno]

theorem resolveAnno_alist (e : Anno) :
    resolveAnno (.alist e) = .alist e := by
  simp [resolveAnno]

/-! ## `pydongo/expressions/field.py` — field expressions -/

/-- Which subclass of `FieldExpression` an object belongs to:
`FieldExpression` itself (scalar) or `ArrayFieldExpression`.
(`ArraySizeFieldExpression` appears separately where needed; it is not
reachable through `get_field_expression`.) -/
inductive FieldKind where
  | scalar
  | array
  deriving DecidableEq

/-- State shared by every field expression: the full dot-path
(`_field_name`), the type annotation, and the default sort direction. -/
structure FieldExpr where
  kind : FieldKind
  field_name : String
  ann : Anno
  sort_ascending : Bool := true
  deriving DecidableEq

/-- `issubclass(get_origin(annotation) or annotation, (Sequence, Set))`:
true for `list[...]`; also true for a plain `str` field, because CPython
registers `str` as a `collections.abc.Sequence`.  `Union` dtypes are not
classes, so `isinstance(dtype, type)` fails and the test is skipped. -/
def Anno.isSequenceOrSet : Anno → Bool
  | .alist _ => true
  | .ascalar n => n = "str"
  | _ => false

/-- `FieldExpression.get_field_expression`: choose between
`ArrayFieldExpression` and `FieldExpression` by inspecting the annotation. -/
def get_field_expression (field_name : String) (ann : Anno) : FieldExpr :=
  if ann.isSequenceOrSet then
    { kind := .array, field_name := field_name, ann := ann }
  else
    { kind := .scalar, field_name := field_name, ann := ann }

/-- The `__name__` used in the error messages of `FieldExpression._getattr`. -/
def Anno.pyName : Anno → String
  | .amodel n _ => n
  | .ascalar n => n
  | .anone => "NoneType"
  | .alist _ => "list"
  | .adict => "dict"
  | .aunion _ => "Union"
  | .aannotated _ => "Annotated"

/-- `FieldExpression._getattr(field_name, annotation, name)`: resolve the
annotation, extend the dot-path, then fail unless the resolved annotation is
a pydantic model that declares `name`; on success build the child field
expression from the child's declared annotation. -/
def fe_getattr (field_name : String) (ann : Anno) (name : String) :
    Except String FieldExpr :=
  match resolveAnno ann with
  | .amodel mname fields =>
    match fields.lookup name with
    | some childAnn =>
      .ok (get_field_expression (field_name ++ "." ++ name) childAnn)
    | none => .error (mname ++ " has no field named " ++ name)
  | other => .error (other.pyName ++ " is not an object but a scalar value")

/-- `get_args(annotation)` restricted to what an `ArrayFieldExpression` can
carry: the element type of `list[T]`; every other annotation reaching an
array expression (only a plain `str`) has no type arguments. -/
def Anno.firstArg : Anno → Option Anno
  | .alist e => some e
  | _ => none

/-- Attribute access on a field expression: `FieldExpression.__getattr__`
delegates to `_getattr` directly; `ArrayFieldExpression.__getattr__` first
extracts the element type from the annotation's type arguments and raises a
`TypeError` when there is none. -/
def FieldExpr.getattr (fe : FieldExpr) (name : String) : Except String FieldExpr :=
  match fe.kind with
  | .scalar => fe_getattr fe.field_name fe.ann name
  | .array =>
    match fe.ann.firstArg with
    | some elemAnn => fe_getattr fe.field_name elemAnn name
    | none => .error ("Cannot extract element type from " ++ fe.ann.pyName)

/-- A chain of `N` nested attribute accesses `fe.n1.n2...nN`. -/
def FieldExpr.accessChain (fe : FieldExpr) : List String → Except String FieldExpr
  | [] => .ok fe
  | n :: rest => (fe.getattr n).bind (fun child => child.accessChain rest)

/-- `FieldExpression.__neg__`: a copy with the sort direction flipped. -/
def FieldExpr.neg (fe : FieldExpr) : FieldExpr :=
  { kind := fe.kind, field_name := fe.field_name, ann := fe.ann,
    sort_ascending := ! fe.sort_ascending }

/-! ## `pydongo/expressions/filter.py` — filter expressions -/

/-- `CollectionFilterExpression`: holds the accumulated query mapping
(`self.expression`, defaulting to `{}`). -/
structure CollectionFilterExpression where
  expression : PyDict := .nil
  deriving DecidableEq

namespace CollectionFilterExpression

/-- `serialize()` returns the accumulated expression mapping. -/
def serialize (f : CollectionFilterExpression) : PyDict :=
  f.expression

/-- Modelled from the spec: `with_expression(partial_mapping) -> Self` —
"merges a raw mapping into current state (mutating accumulation, used
internally when building from a single comparison)".  The current
`filter.py` with this one-argument signature is not under `src/` (the
snapshot there carries an older three-argument signature that the present
`field.py` and the test suite no longer use); the merge is a dictionary
`update`, and the returned object is the mutated receiver. -/
def with_expression (f : CollectionFilterExpression) (d : PyDict) :
    CollectionFilterExpression :=
  ⟨f.expression.update d⟩

/-- `__and__` wraps both operand states under `"$and"`.  The triple returned
is (result, state of `self` after the call, state of `other` after the
call): the method body only reads its operands, so both come back unchanged. -/
def andE (self other : CollectionFilterExpression) :
    CollectionFilterExpression × CollectionFilterExpression × CollectionFilterExpression :=
  (⟨.cons "$and" (.plist (.cons (.pdict self.expression)
      (.cons (.pdict other.expression) .nil))) .nil⟩, self, other)

/-- `__or__`, with the same state-passing convention as `andE`. -/
def orE (self other : CollectionFilterExpression) :
    CollectionFilterExpression × CollectionFilterExpression × CollectionFilterExpression :=
  (⟨.cons "$or" (.plist (.cons (.pdict self.expression)
      (.cons (.pdict other.expression) .nil))) .nil⟩, self, other)

/-- `__invert__` wraps the operand state under `"$not"`; the pair returned is
(result, state of `self` after the call). -/
def invertE (self : CollectionFilterExpression) :
    CollectionFilterExpression × CollectionFilterExpression :=
  (⟨.cons "$not" (.pdict self.expression) .nil⟩, self)

end CollectionFilterExpression

/-- `FieldExpression._get_comparative_expression(operator, value)`: normalize
the value through `HANDLER_MAPPING`, then build `{field_name: {operator:
value}}`. -/
def get_comparative_expression (fe : FieldExpr) (op : String) (value : PyVal) :
    PyDict :=
  .cons fe.field_name (.pdict (.cons op (normalizeValue value) .nil)) .nil

/-- Shared body of the six comparison dunders: a fresh
`CollectionFilterExpression()` with the comparative expression merged in. -/
def comparisonFilter (fe : FieldExpr) (op : String) (value : PyVal) :
    CollectionFilterExpression :=
  CollectionFilterExpression.with_expression {} (get_comparative_expression fe op value)

/-- `FieldExpression.__eq__`. -/
def FieldExpr.eqOp (fe : FieldExpr) (value : PyVal) : CollectionFilterExpression :=
  comparisonFilter fe "$eq" value

/-- `FieldExpression.__ne__`. -/
def FieldExpr.neOp (fe : FieldExpr) (value : PyVal) : CollectionFilterExpression :=
  comparisonFilter fe "$ne" value

/-- `FieldExpression.__gt__`. -/
def FieldExpr.gtOp (fe : FieldExpr) (value : PyVal) : CollectionFilterExpression :=
  comparisonFilter fe "$gt" value

/-- `FieldExpression.__ge__`. -/
def FieldExpr.geOp (fe : FieldExpr) (value : PyVal) : CollectionFilterExpression :=
  comparisonFilter fe "$gte" value

/-- `FieldExpression.__lt__`. -/
def FieldExpr.ltOp (fe : FieldExpr) (value : PyVal) : CollectionFilterExpression :=
  comparisonFilter fe "$lt" value

/-- `FieldExpression.__le__`. -/
def FieldExpr.leOp (fe : FieldExpr) (value : PyVal) : CollectionFilterExpression :=
  comparisonFilter fe "$lte" value

/-! ## `pydongo/expressions/index.py` -/

inductive IndexType where
  | TEXT
  | HASHED
  | TWO_DIMENSIONAL
  | TWO_DIMENSIONAL_SPHERE
  deriving DecidableEq

/-- The wire value of the `IndexType` string enum. -/
def IndexType.wire : IndexType → String
  | .TEXT => "text"
  | .HASHED => "hashed"
  | .TWO_DIMENSIONAL => "2d"
  | .TWO_DIMENSIONAL_SPHERE => "2dsphere"

inductive IndexSortOrder where
  | ASCENDING
  | DESCENDING
  deriving DecidableEq

/-- The integer value of the `IndexSortOrder` int enum. -/
def IndexSortOrder.value : IndexSortOrder → Int
  | .ASCENDING => 1
  | .DESCENDING => -1

inductive CollationStrength where
  | PRIMARY
  | SECONDARY
  | TERTIARY
  | QUATERNARY
  | IDENTICAL
  deriving DecidableEq

/-- The integer value of the `CollationStrength` int enum. -/
def CollationStrength.value : CollationStrength → Int
  | .PRIMARY => 1
  | .SECONDARY => 2
  | .TERTIARY => 3
  | .QUATERNARY => 4
  | .IDENTICAL => 5

/-- A `CollectionFilterExpression` together with its CPython object identity
`oid`.  The identity matters for `IndexExpression.__hash__`: the filter class
overrides neither `__eq__` nor `__hash__`, so `hash(filter)` is derived from
`id(filter)` alone, while serialization uses only the accumulated state. -/
structure FilterRef where
  oid : Nat
  filter : CollectionFilterExpression
  deriving DecidableEq

/-- `IndexExpression.__init__` field for field (defaults as in the source;
`partial_expression` is embedded as `pfilter` because it stores a filter
object reference). -/
structure IndexExpression where
  field_name : String
  index_type : Option IndexType := none
  sort_order : IndexSortOrder := .ASCENDING
  expires_after_seconds : Option Rat := none
  is_sparse : Option Bool := none
  is_unique : Option Bool := none
  is_hidden : Option Bool := none
  collation_locale : String := "en"
  collation_strength : Option CollationStrength := none
  pfilter : Option FilterRef := none
  index_name : Option String := none
  deriving DecidableEq

namespace IndexExpression

/-- `serialize()`: `{field_name: index_type}` when a type is set, else
`{field_name: sort_order}`. -/
def serialize (i : IndexExpression) : PyDict :=
  match i.index_type with
  | some t => .cons i.field_name (.pstr t.wire) .nil
  | none => .cons i.field_name (.pint i.sort_order.value) .nil

/-- The `name` entry of `build_kwargs` (attached when `index_name` is set). -/
def nameKwargs (i : IndexExpression) : PyDict :=
  match i.index_name with
  | some n => .cons "name" (.pstr n) .nil
  | none => .nil

/-- The `expireAfterSeconds` entry of `build_kwargs`: attached when a TTL is
configured, except that for a `TEXT` or `HASHED` index type the TTL is
silently dropped (the source leaves only a TODO comment there). -/
def ttlKwargs (i : IndexExpression) : PyDict :=
  match i.expires_after_seconds with
  | some s =>
    if i.index_type = some .TEXT ∨ i.index_type = some .HASHED then .nil
    else .cons "expireAfterSeconds" (.pfloat s) .nil
  | none => .nil

/-- The `sparse` entry of `build_kwargs`. -/
def sparseKwargs (i : IndexExpression) : PyDict :=
  match i.is_sparse with
  | some b => .cons "sparse" (.pbool b) .nil
  | none => .nil

/-- The `unique` entry of `build_kwargs`. -/
def uniqueKwargs (i : IndexExpression) : PyDict :=
  match i.is_unique with
  | some b => .cons "unique" (.pbool b) .nil
  | none => .nil

/-- The `hidden` entry of `build_kwargs`. -/
def hiddenKwargs (i : IndexExpression) : PyDict :=
  match i.is_hidden with
  | some b => .cons "hidden" (.pbool b) .nil
  | none => .nil

/-- The `collation` entry of `build_kwargs`: attached whenever a strength is
set or the locale string is truthy (non-empty); it always carries the
locale, plus the strength value when one is set. -/
def collationKwargs (i : IndexExpression) : PyDict :=
  if i.collation_strength.isSome ∨ i.collation_locale ≠ "" then
    .cons "collation"
      (.pdict (PyDict.append (.cons "locale" (.pstr i.collation_locale) .nil)
        (match i.collation_strength with
         | some st => .cons "strength" (.pint st.value) .nil
         | none => .nil))) .nil
  else .nil

/-- The `partialFilterExpression` entry of `build_kwargs`. -/
def pfilterKwargs (i : IndexExpression) : PyDict :=
  match i.pfilter with
  | some f => .cons "partialFilterExpression" (.pdict f.filter.serialize) .nil
  | none => .nil

/-- `build_kwargs()`: assemble the non-default modifiers, in source order:
name, TTL, sparse, unique, hidden, collation, partial filter. -/
def build_kwargs (i : IndexExpression) : PyDict :=
  (nameKwargs i).append ((ttlKwargs i).append ((sparseKwargs i).append
    ((uniqueKwargs i).append ((hiddenKwargs i).append
      ((collationKwargs i).append (pfilterKwargs i))))))

end IndexExpression

/-- The tuple handed to `hash(...)` by `IndexExpression.__hash__`, in source
order.  The `partial_expression` component contributes only the filter
object's identity (`oidOfPartial`), because the filter class inherits the
default id-based `object.__hash__`; CPython's hash of this tuple is a
deterministic function of the components modelled here, so equal tuples give
equal hashes and distinct tuples feed distinct inputs to the hash. -/
structure IndexHashKey where
  field_name : String
  index_type : Option IndexType
  sort_order : IndexSortOrder
  expires_after_seconds : Option Rat
  is_sparse : Option Bool
  is_unique : Option Bool
  is_hidden : Option Bool
  collation_locale : String
  collation_strength : Option CollationStrength
  index_name : Option String
  oidOfPartial : Option Nat
  deriving DecidableEq

namespace IndexExpression

/-- `IndexExpression.__hash__`: the tuple of the eleven constructor fields,
with the partial filter contributing its object identity. -/
def hashKey (i : IndexExpression) : IndexHashKey :=
  ⟨i.field_name, i.index_type, i.sort_order, i.expires_after_seconds,
    i.is_sparse, i.is_unique, i.is_hidden, i.collation_locale,
    i.collation_strength, i.index_name, i.pfilter.map FilterRef.oid⟩

/-- `IndexExpression.__eq__` on two index expressions: equality of
`build_kwargs()` and of `serialize()` (the branches for comparing against a
string or an unrelated object are not modelled). -/
def eqB (a b : IndexExpression) : Bool :=
  (a.build_kwargs == b.build_kwargs) && (a.serialize == b.serialize)

end IndexExpression

/-- CPython `set` membership step: an element being inserted is deduplicated
against an existing element only when their hashes agree and `__eq__` holds;
an element whose hash differs from every stored element's hash is always
stored.  Hash agreement is modelled as equality of the hashed tuples. -/
def pySetInsert (s : List IndexExpression) (x : IndexExpression) :
    List IndexExpression :=
  if s.any (fun y => (y.hashKey == x.hashKey) && y.eqB x) then s else s ++ [x]

/-- `IndexExpressionBuilder`: accumulates keyword arguments for
`IndexExpression(**kwargs)`; modelled as the partially-filled record
(starting from the constructor defaults, exactly the effect of the kwargs
dictionary). -/
structure IndexExpressionBuilder where
  current : IndexExpression

/-- `IndexExpressionBuilder(field_name)`. -/
def IndexExpressionBuilder.init (field_name : String) : IndexExpressionBuilder :=
  ⟨{ field_name := field_name }⟩

namespace IndexExpressionBuilder

def use_sort_order (b : IndexExpressionBuilder) (sort_order : IndexSortOrder) :
    IndexExpressionBuilder :=
  ⟨{ b.current with sort_order := sort_order }⟩

def use_index_type (b : IndexExpressionBuilder) (index_type : IndexType) :
    IndexExpressionBuilder :=
  ⟨{ b.current with index_type := some index_type }⟩

def use_collation (b : IndexExpressionBuilder) (locale : String)
    (strength : CollationStrength) : IndexExpressionBuilder :=
  ⟨{ b.current with collation_locale := locale, collation_strength := some strength }⟩

/-- `use_partial_expression`. -/
def use_pfilter (b : IndexExpressionBuilder) (f : FilterRef) :
    IndexExpressionBuilder :=
  ⟨{ b.current with pfilter := some f }⟩

def use_index_name (b : IndexExpressionBuilder) (index_name : String) :
    IndexExpressionBuilder :=
  ⟨{ b.current with index_name := some index_name }⟩

def use_sparse (b : IndexExpressionBuilder) (is_sparse : Bool := true) :
    IndexExpressionBuilder :=
  ⟨{ b.current with is_sparse := some is_sparse }⟩

def use_unique (b : IndexExpressionBuilder) (is_unique : Bool := true) :
    IndexExpressionBuilder :=
  ⟨{ b.current with is_unique := some is_unique }⟩

def use_hidden (b : IndexExpressionBuilder) (is_hidden : Bool := true) :
    IndexExpressionBuilder :=
  ⟨{ b.current with is_hidden := some is_hidden }⟩

def use_ttl (b : IndexExpressionBuilder) (seconds : Rat) :
    IndexExpressionBuilder :=
  ⟨{ b.current with expires_after_seconds := some seconds }⟩

def build_index (b : IndexExpressionBuilder) : IndexExpression :=
  b.current

end IndexExpressionBuilder

/-! ## `pydongo/expressions/mutation.py` and
`pydongo/workers/collection.py` (mutation side)

These two files come from the later snapshot of the repository (the one
carrying the mutation feature).  `MutationExpressionContext` stores its data
in a single class-level `contextvars.ContextVar`; every method is a
classmethod, so a `MutationExpressionContext()` instance carries no state of
its own.  The model therefore threads an explicit `ExecContext` — the value
of that class-level variable in the current execution context (thread /
asyncio task) — through every operation, and a builder contributes nothing
to where mutations are stored. -/

mutual

/-- pydantic `model_dump()`: recursively turn model instances into plain
dictionaries (keeping every other value as is). -/
def modelDumpVal : PyVal → PyVal
  | .pobj _ fields => .pdict (modelDumpDict fields)
  | .pdict d => .pdict (modelDumpDict d)
  | .plist xs => .plist (modelDumpList xs)
  | v => v

def modelDumpList : PyList → PyList
  | .nil => .nil
  | .cons v rest => .cons (modelDumpVal v) (modelDumpList rest)

def modelDumpDict : PyDict → PyDict
  | .nil => .nil
  | .cons k v rest => .cons k (modelDumpVal v) (modelDumpDict rest)

end

/-- `MutationExpression(field_name, operation, value)`. -/
structure MutationExpression where
  field_name : String
  operation : String
  value : PyVal
  deriving DecidableEq

/-- `MutationExpression.serialize()`: `{operation: {field_name: value}}`,
with a pydantic model value flattened through `model_dump()` first. -/
def MutationExpression.serialize (m : MutationExpression) : PyDict :=
  let v :=
    match m.value with
    | .pobj n fields => modelDumpVal (.pobj n fields)
    | v => v
  .cons m.operation (.pdict (.cons m.field_name v .nil)) .nil

/-- The flattened value stored for a mutation (the inner value of
`MutationExpression.serialize`). -/
def MutationExpression.storedValue (m : MutationExpression) : PyVal :=
  match m.value with
  | .pobj n fields => modelDumpVal (.pobj n fields)
  | v => v

/-- The value of the class-level ContextVar
`MutationExpressionContext._mutations` in one execution context: `none`
models a context in which the variable was never set (`.get()` raises
`LookupError` there). -/
structure ExecContext where
  mutations : Option PyDict
  deriving DecidableEq

namespace MutationExpressionContext

/-- The inner field-to-value dictionary stored under one operator key
(the empty dictionary when the key is absent, as `setdefault(op, {})`
produces; a stored value that is not a dictionary cannot be produced by this
API and also reads as empty). -/
def innerDict : Option PyVal → PyDict
  | some (.pdict d) => d
  | _ => .nil

/-- The accumulation step of `add_mutation` for one `(operator, values)` item
of the serialized mutation: `mutations.setdefault(operator, {}).update(values)`.
`setdefault` inserts an empty dict at the end when the operator is new and
returns the stored inner dict, whose in-place `update` gives last-write-wins
per field. -/
def addSerialized (mutations : PyDict) (op : String) (values : PyDict) : PyDict :=
  mutations.set op (.pdict ((innerDict (mutations.lookup op)).update values))

/-- `MutationExpressionContext.add_mutation(mutation)` in execution context
`ec`: read the ContextVar (raising `LookupError` when unset), then fold the
serialized mutation into it.  The serialized form has exactly one operator
with exactly one field. -/
def add_mutation (ec : ExecContext) (m : MutationExpression) :
    Except String ExecContext :=
  match ec.mutations with
  | none => .error "LookupError"
  | some mutations =>
    .ok ⟨some (addSerialized mutations m.operation
      (.cons m.field_name m.storedValue .nil))⟩

/-- `MutationExpressionContext.get_mutations()` in execution context `ec`. -/
def get_mutations (ec : ExecContext) : Except String PyDict :=
  match ec.mutations with
  | none => .error "LookupError"
  | some mutations => .ok mutations

/-- `MutationExpressionContext.clear()`: sets the ContextVar of the current
execution context to an empty dict. -/
def clear (_ec : ExecContext) : ExecContext :=
  ⟨some .nil⟩

end MutationExpressionContext

/-- The two driver flavours a builder can be bound to. -/
inductive DriverMode where
  | sync
  | async
  deriving DecidableEq

/-- `CollectionResponseBuilder` state relevant to the mutation API:
`__init__` stores the filter expression, the collection name, the driver
mode, and a fresh `MutationExpressionContext()` instance — but that instance
object holds no per-instance data (all context state lives in the class-level
ContextVar), so no mutation store appears here. -/
structure CollectionResponseBuilder where
  mode : DriverMode
  collection_name : String
  expression : CollectionFilterExpression
  deriving DecidableEq

/-- `CollectionWorker.find(expression)`: builds a response builder bound to
the worker's driver mode and collection name.  Creating the builder does not
touch the execution context's mutation variable. -/
def findBuilder (mode : DriverMode) (collection_name : String)
    (expression : CollectionFilterExpression) : CollectionResponseBuilder :=
  { mode := mode, collection_name := collection_name, expression := expression }

namespace CollectionResponseBuilder

/-- `CollectionResponseBuilder.get_mutations()` delegates to the context
classmethod; the builder receiving the call plays no role. -/
def get_mutations (_b : CollectionResponseBuilder) (ec : ExecContext) :
    Except String PyDict :=
  MutationExpressionContext.get_mutations ec

/-- Recording one mutation through a builder (the tail of
`CollectionResponseBuilder.__setattr__`, after the field expression has
turned the assigned value into a `MutationExpression`): delegates to the
context classmethod; the builder receiving the call plays no role. -/
def record (_b : CollectionResponseBuilder) (ec : ExecContext)
    (m : MutationExpression) : Except String ExecContext :=
  MutationExpressionContext.add_mutation ec m

end CollectionResponseBuilder

/-- The driver's `update_many` response (shape only; the builder returns it
unchanged). -/
structure UpdateResult where
  matched_count : Nat
  modified_count : Nat
  deriving DecidableEq

/-- One observable driver invocation made by `mutate` / `amutate`. -/
inductive DriverCall where
  | update_many (collection : String) (query : PyDict) (update : PyDict)
  deriving DecidableEq

/-- `CollectionResponseBuilder.mutate()` in execution context `ec`.  The
driver itself is external, so its outcome for the one possible `update_many`
call is an oracle argument `driverResp`.  Returned: the result (or the
exception), the execution context after the call, and the list of driver
calls issued.

Source behaviour: on a sync driver, `update_many(collection, filter,
get_mutations())` is sent (reading the context first — an unset ContextVar
raises before anything is sent), then the context is cleared and the
response returned; a raising driver propagates the exception before `clear`
runs; on an async driver an `AttributeError` is raised immediately. -/
def mutate (b : CollectionResponseBuilder) (ec : ExecContext)
    (driverResp : Except String UpdateResult) :
    Except String UpdateResult × ExecContext × List DriverCall :=
  match b.mode with
  | .sync =>
    match MutationExpressionContext.get_mutations ec with
    | .error e => (.error e, ec, [])
    | .ok muts =>
      let call := DriverCall.update_many b.collection_name
        b.expression.serialize muts
      match driverResp with
      | .ok r => (.ok r, MutationExpressionContext.clear ec, [call])
      | .error e => (.error e, ec, [call])
  | .async =>
    (.error "Use the amutate method instead for async drivers", ec, [])

/-- `CollectionResponseBuilder.amutate()`: the `await`-ing twin of `mutate`,
with the mode check reversed. -/
def amutate (b : CollectionResponseBuilder) (ec : ExecContext)
    (driverResp : Except String UpdateResult) :
    Except String UpdateResult × ExecContext × List DriverCall :=
  match b.mode with
  | .async =>
    match MutationExpressionContext.get_mutations ec with
    | .error e => (.error e, ec, [])
    | .ok muts =>
      let call := DriverCall.update_many b.collection_name
        b.expression.serialize muts
      match driverResp with
      | .ok r => (.ok r, MutationExpressionContext.clear ec, [call])
      | .error e => (.error e, ec, [call])
  | .sync =>
    (.error "Use the mutate method instead for sync drivers", ec, [])

/-! ## Claim theorems -/

/-- C1: for every scalar field expression and every value, each of the six
comparison operators `==, !=, >, >=, <, <=` produces a filter expression
whose `serialize()` returns exactly `{field_path: {op: normalized_v}}` for
the respective MongoDB operator `$eq, $ne, $gt, $gte, $lt, $lte`, where the
normalization step turns a calendar date into the datetime at midnight and a
UUID into its string form and embeds every other value unchanged. -/
theorem c1_scalar_comparison_serialization :
    (∀ (fe : FieldExpr) (v : PyVal),
      (fe.eqOp v).serialize =
        .cons fe.field_name (.pdict (.cons "$eq" (normalizeValue v) .nil)) .nil) ∧
    (∀ (fe : FieldExpr) (v : PyVal),
      (fe.neOp v).serialize =
        .cons fe.field_name (.pdict (.cons "$ne" (normalizeValue v) .nil)) .nil) ∧
    (∀ (fe : FieldExpr) (v : PyVal),
      (fe.gtOp v).serialize =
        .cons fe.field_name (.pdict (.cons "$gt" (normalizeValue v) .nil)) .nil) ∧
    (∀ (fe : FieldExpr) (v : PyVal),
      (fe.geOp v).serialize =
        .cons fe.field_name (.pdict (.cons "$gte" (normalizeValue v) .nil)) .nil) ∧
    (∀ (fe : FieldExpr) (v : PyVal),
      (fe.ltOp v).serialize =
        .cons fe.field_name (.pdict (.cons "$lt" (normalizeValue v) .nil)) .nil) ∧
    (∀ (fe : FieldExpr) (v : PyVal),
      (fe.leOp v).serialize =
        .cons fe.field_name (.pdict (.cons "$lte" (normalizeValue v) .nil)) .nil) ∧
    (∀ d, normalizeValue (.pdate d) = .pdatetime d 0) ∧
    (∀ n, normalizeValue (.puuid n) = .pstr (uuidStr n)) ∧
    (∀ n, normalizeValue (.pint n) = .pint n) ∧
    (∀ q, normalizeValue (.pfloat q) = .pfloat q) ∧
    (∀ b, normalizeValue (.pbool b) = .pbool b) ∧
    (∀ s, normalizeValue (.pstr s) = .pstr s) ∧
    (∀ d t, normalizeValue (.pdatetime d t) = .pdatetime d t) ∧
    (normalizeValue .pnone = .pnone) ∧
    (∀ xs, normalizeValue (.plist xs) = .plist xs) ∧
    (∀ e, normalizeValue (.pdict e) = .pdict e) ∧
    (∀ n f, normalizeValue (.pobj n f) = .pobj n f) :=
  ⟨fun _ _ => rfl, fun _ _ => rfl, fun _ _ => rfl, fun _ _ => rfl,
    fun _ _ => rfl, fun _ _ => rfl, fun _ => rfl, fun _ => rfl, fun _ => rfl,
    fun _ => rfl, fun _ => rfl, fun _ => rfl, fun _ _ => rfl, rfl,
    fun _ => rfl, fun _ => rfl, fun _ _ => rfl⟩

/-- C3: for all filter expressions `F1`, `F2`, the `&` combinator serializes
to `{"$and": [F1.state, F2.state]}`, `|` to `{"$or": [...]}` and `~F` to
`{"$not": F.state}`; each combinator returns a new expression and leaves its
operands unchanged, so applying the same combinator twice from the same
originals produces structurally equal results. -/
theorem c3_filter_combinators (f1 f2 : CollectionFilterExpression) :
    ((CollectionFilterExpression.andE f1 f2).1.serialize =
        .cons "$and" (.plist (.cons (.pdict f1.expression)
          (.cons (.pdict f2.expression) .nil))) .nil ∧
      (CollectionFilterExpression.andE f1 f2).2.1 = f1 ∧
      (CollectionFilterExpression.andE f1 f2).2.2 = f2 ∧
      (CollectionFilterExpression.andE (CollectionFilterExpression.andE f1 f2).2.1
          (CollectionFilterExpression.andE f1 f2).2.2).1 =
        (CollectionFilterExpression.andE f1 f2).1) ∧
    ((CollectionFilterExpression.orE f1 f2).1.serialize =
        .cons "$or" (.plist (.cons (.pdict f1.expression)
          (.cons (.pdict f2.expression) .nil))) .nil ∧
      (CollectionFilterExpression.orE f1 f2).2.1 = f1 ∧
      (CollectionFilterExpression.orE f1 f2).2.2 = f2 ∧
      (CollectionFilterExpression.orE (CollectionFilterExpression.orE f1 f2).2.1
          (CollectionFilterExpression.orE f1 f2).2.2).1 =
        (CollectionFilterExpression.orE f1 f2).1) ∧
    ((CollectionFilterExpression.invertE f1).1.serialize =
        .cons "$not" (.pdict f1.expression) .nil ∧
      (CollectionFilterExpression.invertE f1).2 = f1 ∧
      (CollectionFilterExpression.invertE (CollectionFilterExpression.invertE f1).2).1 =
        (CollectionFilterExpression.invertE f1).1) :=
  ⟨⟨rfl, rfl, rfl, rfl⟩, ⟨rfl, rfl, rfl, rfl⟩, ⟨rfl, rfl, rfl⟩⟩

/-- Whether an annotation is a pydantic model class
(`issubclass(annotation, BaseModel)`). -/
def Anno.isModelB : Anno → Bool
  | .amodel _ _ => true
  | _ => false

/-- The annotation one attribute-access step resolves through: the
expression's own annotation for a scalar `FieldExpression`, the element type
extracted from the type arguments for an `ArrayFieldExpression`. -/
def FieldExpr.stepSource (fe : FieldExpr) : Option Anno :=
  match fe.kind with
  | .scalar => some fe.ann
  | .array => fe.ann.firstArg

theorem fe_getattr_field_name (f : String) (a : Anno) (n : String)
    (r : FieldExpr) (h : fe_getattr f a n = .ok r) :
    r.field_name = f ++ "." ++ n := by
  unfold fe_getattr at h
  split at h
  · split at h
    · injection h with h
      subst h
      unfold get_field_expression
      split <;> rfl
    · simp at h
  · simp at h

theorem getattr_field_name (fe : FieldExpr) (n : String) (r : FieldExpr)
    (h : fe.getattr n = .ok r) : r.field_name = fe.field_name ++ "." ++ n := by
  unfold FieldExpr.getattr at h
  split at h
  · exact fe_getattr_field_name _ _ _ _ h
  · split at h
    · exact fe_getattr_field_name _ _ _ _ h
    · simp at h

theorem fe_getattr_ann (f : String) (a : Anno) (n : String)
    (r : FieldExpr) (h : fe_getattr f a n = .ok r) :
    ∃ mname flds, resolveAnno a = .amodel mname flds ∧
      flds.lookup n = some r.ann := by
  unfold fe_getattr at h
  split at h
  case h_1 mname flds heq =>
    split at h
    case h_1 childAnn hlk =>
      injection h with h
      subst h
      refine ⟨mname, flds, heq, ?_⟩
      rw [hlk]
      unfold get_field_expression
      split <;> rfl
    case h_2 => simp at h
  case h_2 => simp at h

theorem getattr_ann (fe : FieldExpr) (n : String) (r : FieldExpr)
    (h : fe.getattr n = .ok r) :
    ∃ src mname flds, fe.stepSource = some src ∧
      resolveAnno src = .amodel mname flds ∧ flds.lookup n = some r.ann := by
  unfold FieldExpr.getattr at h
  unfold FieldExpr.stepSource
  split at h
  case h_1 hk =>
    obtain ⟨m, flds, h1, h2⟩ := fe_getattr_ann _ _ _ _ h
    exact ⟨fe.ann, m, flds, rfl, h1, h2⟩
  case h_2 hk =>
    split at h
    case h_1 elemAnn ha =>
      obtain ⟨m, flds, h1, h2⟩ := fe_getattr_ann _ _ _ _ h
      exact ⟨elemAnn, m, flds, ha, h1, h2⟩
    case h_2 => simp at h

theorem accessChain_field_name :
    ∀ (names : List String) (fe r : FieldExpr),
      fe.accessChain names = .ok r →
      r.field_name = names.foldl (fun acc n => acc ++ "." ++ n) fe.field_name
  | [], fe, r => by
    intro h
    simp only [FieldExpr.accessChain, Except.ok.injEq] at h
    subst h
    rfl
  | n :: rest, fe, r => by
    intro h
    simp only [FieldExpr.accessChain] at h
    rcases hstep : fe.getattr n with e | child <;> rw [hstep] at h
    · exact absurd h (by simp [Except.bind])
    · simp only [Except.bind] at h
      have ih := accessChain_field_name rest child r h
      rw [ih, getattr_field_name fe n child hstep]
      rfl

theorem accessChain_last_ann :
    ∀ (names : List String) (n : String) (fe r : FieldExpr),
      fe.accessChain (names ++ [n]) = .ok r →
      ∃ p src mname flds, fe.accessChain names = .ok p ∧
        p.stepSource = some src ∧ resolveAnno src = .amodel mname flds ∧
        flds.lookup n = some r.ann
  | [], n, fe, r => by
    intro h
    simp only [List.nil_append, FieldExpr.accessChain] at h
    rcases hstep : fe.getattr n with e | child <;> rw [hstep] at h
    · exact absurd h (by simp [Except.bind])
    · simp only [Except.bind, FieldExpr.accessChain, Except.ok.injEq] at h
      subst h
      obtain ⟨src, m, flds, h1, h2, h3⟩ := getattr_ann fe n child hstep
      exact ⟨fe, src, m, flds, rfl, h1, h2, h3⟩
  | m :: rest, n, fe, r => by
    intro h
    simp only [List.cons_append, FieldExpr.accessChain] at h
    rcases hstep : fe.getattr m with e | child <;> rw [hstep] at h
    · exact absurd h (by simp [Except.bind])
    · simp only [Except.bind] at h
      obtain ⟨p, src, mn, flds, h1, h2, h3, h4⟩ :=
        accessChain_last_ann rest n child r h
      refine ⟨p, src, mn, flds, ?_, h2, h3, h4⟩
      simp only [FieldExpr.accessChain, hstep, Except.bind]
      exact h1

theorem getattr_scalar_eq (fe : FieldExpr) (n : String)
    (hk : fe.kind = .scalar) :
    fe.getattr n = fe_getattr fe.field_name fe.ann n := by
  unfold FieldExpr.getattr
  rw [hk]

theorem getattr_not_model_error (fe : FieldExpr) (n : String)
    (hk : fe.kind = .scalar) (hm : (resolveAnno fe.ann).isModelB = false) :
    fe.getattr n =
      .error ((resolveAnno fe.ann).pyName ++ " is not an object but a scalar value") := by
  rw [getattr_scalar_eq fe n hk]
  unfold fe_getattr
  split
  case h_1 mname flds heq => rw [heq] at hm; simp [Anno.isModelB] at hm
  case h_2 => rfl

theorem getattr_no_such_field_error (fe : FieldExpr) (n : String)
    (mname : String) (flds : AnnoFields) (hk : fe.kind = .scalar)
    (hres : resolveAnno fe.ann = .amodel mname flds)
    (hlk : flds.lookup n = none) :
    fe.getattr n = .error (mname ++ " has no field named " ++ n) := by
  rw [getattr_scalar_eq fe n hk]
  unfold fe_getattr
  simp only [hres, hlk]

/-- C2: for every chain of nested attribute accesses starting from a schema
field, the resulting field expression's path is the dot-joined concatenation
of all segment names, and its annotation is the declared type of the last
segment's schema field; attribute access through a resolved type that is not
a pydantic model raises a "not an object" error, and access for a name absent
from the model's declared fields raises a "has no field named" error. -/
theorem c2_nested_attribute_access :
    (∀ (fe r : FieldExpr) (names : List String),
      fe.accessChain names = .ok r →
      r.field_name = names.foldl (fun acc n => acc ++ "." ++ n) fe.field_name) ∧
    (∀ (fe r : FieldExpr) (names : List String) (n : String),
      fe.accessChain (names ++ [n]) = .ok r →
      ∃ p src mname flds, fe.accessChain names = .ok p ∧
        p.stepSource = some src ∧ resolveAnno src = .amodel mname flds ∧
        flds.lookup n = some r.ann) ∧
    (∀ (fe : FieldExpr) (n : String), fe.kind = .scalar →
      (resolveAnno fe.ann).isModelB = false →
      fe.getattr n =
        .error ((resolveAnno fe.ann).pyName ++ " is not an object but a scalar value")) ∧
    (∀ (fe : FieldExpr) (n mname : String) (flds : AnnoFields),
      fe.kind = .scalar →
      resolveAnno fe.ann = .amodel mname flds → flds.lookup n = none →
      fe.getattr n = .error (mname ++ " has no field named " ++ n)) :=
  ⟨fun fe r names => accessChain_field_name names fe r,
   fun fe r names n => accessChain_last_ann names n fe r,
   fun fe n hk hm => getattr_not_model_error fe n hk hm,
   fun fe n mname flds hk h1 h2 => getattr_no_such_field_error fe n mname flds hk h1 h2⟩

/-- Witness for the C2 theorem: on the `Friend` schema (`username: str`,
`age: int`) rooted at path `bff`, one access step yields path `bff.age`, and
asking for the undeclared field `height` yields the "has no field named"
error. -/
theorem c2_nested_attribute_access_witness :
    (FieldExpr.mk .scalar "bff.age" (.ascalar "int") true).field_name =
        ["age"].foldl (fun acc n => acc ++ "." ++ n) "bff" ∧
    FieldExpr.getattr (FieldExpr.mk .scalar "bff"
        (.amodel "Friend" (.cons "username" (.ascalar "str")
          (.cons "age" (.ascalar "int") .nil))) true) "height" =
      .error ("Friend" ++ " has no field named " ++ "height") :=
  ⟨c2_nested_attribute_access.1
      (FieldExpr.mk .scalar "bff"
        (.amodel "Friend" (.cons "username" (.ascalar "str")
          (.cons "age" (.ascalar "int") .nil))) true)
      (FieldExpr.mk .scalar "bff.age" (.ascalar "int") true) ["age"]
      (by simp [FieldExpr.accessChain, FieldExpr.getattr, fe_getattr,
            resolveAnno_amodel, AnnoFields.lookup, get_field_expression,
            Anno.isSequenceOrSet, Except.bind]),
   c2_nested_attribute_access.2.2.2
      (FieldExpr.mk .scalar "bff"
        (.amodel "Friend" (.cons "username" (.ascalar "str")
          (.cons "age" (.ascalar "int") .nil))) true)
      "height" "Friend"
      (.cons "username" (.ascalar "str") (.cons "age" (.ascalar "int") .nil))
      rfl (by simp [resolveAnno_amodel]) (by simp [AnnoFields.lookup])⟩

/-- Updating with a one-entry dictionary is a single `set`. -/
theorem PyDict.update_single (d : PyDict) (k : String) (v : PyVal) :
    d.update (.cons k v .nil) = d.set k v :=
  rfl

/-- Observable content of an accumulated mutation mapping: the value recorded
under `mutations[operator][field_path]`. -/
def mutationLookup (mutations : PyDict) (op f : String) : Option PyVal :=
  (MutationExpressionContext.innerDict (mutations.lookup op)).lookup f

/-- C4: mutations accumulate as `{operator: {field_path: value}}` with
last-write-wins per operator+field pair — adding a mutation overwrites
exactly the entry for its own operator and field and leaves every other
operator+field entry unchanged; concretely, `$inc age 5` then `$inc age -2`
leaves `{"$inc": {"age": -2}}`, and a subsequent `$mul age 0.25` coexists
with it. -/
theorem c4_mutation_accumulation :
    (∀ (mm : PyDict) (m : MutationExpression),
      MutationExpressionContext.add_mutation ⟨some mm⟩ m =
        .ok ⟨some (MutationExpressionContext.addSerialized mm m.operation
          (.cons m.field_name m.storedValue .nil))⟩) ∧
    (∀ (mm : PyDict) (m : MutationExpression) (op f : String),
      mutationLookup (MutationExpressionContext.addSerialized mm m.operation
          (.cons m.field_name m.storedValue .nil)) op f =
        if m.operation = op ∧ m.field_name = f then some m.storedValue
        else mutationLookup mm op f) ∧
    (MutationExpressionContext.add_mutation ⟨some .nil⟩
        ⟨"age", "$inc", .pint 5⟩ =
      .ok ⟨some (.cons "$inc" (.pdict (.cons "age" (.pint 5) .nil)) .nil)⟩) ∧
    (MutationExpressionContext.add_mutation
        ⟨some (.cons "$inc" (.pdict (.cons "age" (.pint 5) .nil)) .nil)⟩
        ⟨"age", "$inc", .pint (-2)⟩ =
      .ok ⟨some (.cons "$inc" (.pdict (.cons "age" (.pint (-2)) .nil)) .nil)⟩) ∧
    (MutationExpressionContext.add_mutation
        ⟨some (.cons "$inc" (.pdict (.cons "age" (.pint (-2)) .nil)) .nil)⟩
        ⟨"age", "$mul", .pfloat (1/4)⟩ =
      .ok ⟨some (.cons "$inc" (.pdict (.cons "age" (.pint (-2)) .nil))
        (.cons "$mul" (.pdict (.cons "age" (.pfloat (1/4)) .nil)) .nil))⟩) := by
  refine ⟨fun mm m => rfl, ?_, rfl, rfl, rfl⟩
  intro mm m op f
  unfold mutationLookup MutationExpressionContext.addSerialized
  rw [PyDict.update_single, PyDict.lookup_set]
  by_cases hop : m.operation = op
  · subst hop
    simp only [if_pos rfl, MutationExpressionContext.innerDict]
    by_cases hf : m.field_name = f
    · simp [hf, PyDict.lookup_set]
    · simp [hf, PyDict.lookup_set]
  · simp [hop]

/-- C5 (code bug evidence): the mutation store is the single class-level
ContextVar, so two builders created independently from the same collection
and used in the same execution context (same thread, no task switch) share
one accumulation dictionary: after builder A records `$inc age 5` and
builder B records `$inc age 20`, reading the mutations through builder A
yields `{"$inc": {"age": 20}}` — builder B's write is observable through
builder A, against the claim (and against the repository's own tests, which
expect `{"$inc": {"age": 5}}` for A).  Moreover in a fresh execution context,
where the ContextVar was never set, the very first recorded mutation raises
`LookupError`.  The final conjunct shows the builder state itself carries no
mutation store: both builders are indistinguishable values. -/
theorem c5_mutation_context_shared_between_builders :
    (MutationExpressionContext.clear ⟨none⟩ = ⟨some .nil⟩) ∧
    ((findBuilder .sync "dummy_models" ⟨.nil⟩).record ⟨some .nil⟩
        ⟨"age", "$inc", .pint 5⟩ =
      .ok ⟨some (.cons "$inc" (.pdict (.cons "age" (.pint 5) .nil)) .nil)⟩) ∧
    ((findBuilder .sync "dummy_models" ⟨.nil⟩).record
        ⟨some (.cons "$inc" (.pdict (.cons "age" (.pint 5) .nil)) .nil)⟩
        ⟨"age", "$inc", .pint 20⟩ =
      .ok ⟨some (.cons "$inc" (.pdict (.cons "age" (.pint 20) .nil)) .nil)⟩) ∧
    ((findBuilder .sync "dummy_models" ⟨.nil⟩).get_mutations
        ⟨some (.cons "$inc" (.pdict (.cons "age" (.pint 20) .nil)) .nil)⟩ =
      .ok (.cons "$inc" (.pdict (.cons "age" (.pint 20) .nil)) .nil)) ∧
    ((findBuilder .sync "dummy_models" ⟨.nil⟩).record ⟨none⟩
        ⟨"age", "$inc", .pint 5⟩ = .error "LookupError") ∧
    (findBuilder .sync "dummy_models" ⟨.nil⟩ =
      findBuilder .sync "dummy_models" ⟨.nil⟩) :=
  ⟨rfl, rfl, rfl, rfl, rfl, rfl⟩

/-- C6: `mutate()` sends the accumulated mutation context as one
`update_many` against the builder's current filter and then clears the
context to empty; when the driver raises, the exception propagates and the
context is left unchanged, so the accumulated mutations remain available for
a retry; calling `mutate()` on an async-driver builder (or `amutate()` on a
sync-driver builder) raises a usage error without sending anything and
without touching the context. -/
theorem c6_mutate_clears_context_on_success_only :
    (∀ (b : CollectionResponseBuilder) (ec : ExecContext) (mm : PyDict)
        (r : UpdateResult),
      b.mode = .sync → ec.mutations = some mm →
      mutate b ec (.ok r) =
        (.ok r, ⟨some .nil⟩,
          [.update_many b.collection_name b.expression.serialize mm])) ∧
    (∀ (b : CollectionResponseBuilder) (ec : ExecContext) (mm : PyDict)
        (e : String),
      b.mode = .sync → ec.mutations = some mm →
      mutate b ec (.error e) =
        (.error e, ec,
          [.update_many b.collection_name b.expression.serialize mm])) ∧
    (∀ (b : CollectionResponseBuilder) (ec : ExecContext)
        (resp : Except String UpdateResult),
      b.mode = .async →
      mutate b ec resp =
        (.error "Use the amutate method instead for async drivers", ec, [])) ∧
    (∀ (b : CollectionResponseBuilder) (ec : ExecContext) (mm : PyDict)
        (r : UpdateResult),
      b.mode = .async → ec.mutations = some mm →
      amutate b ec (.ok r) =
        (.ok r, ⟨some .nil⟩,
          [.update_many b.collection_name b.expression.serialize mm])) ∧
    (∀ (b : CollectionResponseBuilder) (ec : ExecContext) (mm : PyDict)
        (e : String),
      b.mode = .async → ec.mutations = some mm →
      amutate b ec (.error e) =
        (.error e, ec,
          [.update_many b.collection_name b.expression.serialize mm])) ∧
    (∀ (b : CollectionResponseBuilder) (ec : ExecContext)
        (resp : Except String UpdateResult),
      b.mode = .sync →
      amutate b ec (.error "boom") =
        (.error "Use the mutate method instead for sync drivers", ec, [])) := by
  refine ⟨?_, ?_, ?_, ?_, ?_, ?_⟩
  · intro b ec mm r hmode hmm
    unfold mutate
    rw [hmode]
    simp [MutationExpressionContext.get_mutations, hmm,
      MutationExpressionContext.clear]
  · intro b ec mm e hmode hmm
    unfold mutate
    rw [hmode]
    simp [MutationExpressionContext.get_mutations, hmm]
  · intro b ec resp hmode
    unfold mutate
    rw [hmode]
  · intro b ec mm r hmode hmm
    unfold amutate
    rw [hmode]
    simp [MutationExpressionContext.get_mutations, hmm,
      MutationExpressionContext.clear]
  · intro b ec mm e hmode hmm
    unfold amutate
    rw [hmode]
    simp [MutationExpressionContext.get_mutations, hmm]
  · intro b ec resp hmode
    unfold amutate
    rw [hmode]

/-- Witness for the C6 theorem at a concrete builder and context: a sync
builder with filter `{"age": {"$gt": 18}}` and an accumulated
`{"$set": {"name": "Sam"}}` context; the successful call returns the driver
response, clears the context and issues exactly one `update_many`; the
failing call leaves the context untouched; the wrong-mode call errors. -/
theorem c6_mutate_witness :
    (mutate (findBuilder .sync "users"
        ⟨.cons "age" (.pdict (.cons "$gt" (.pint 18) .nil)) .nil⟩)
      ⟨some (.cons "$set" (.pdict (.cons "name" (.pstr "Sam") .nil)) .nil)⟩
      (.ok ⟨3, 2⟩) =
        (.ok ⟨3, 2⟩, ⟨some .nil⟩,
          [.update_many "users"
            (.cons "age" (.pdict (.cons "$gt" (.pint 18) .nil)) .nil)
            (.cons "$set" (.pdict (.cons "name" (.pstr "Sam") .nil)) .nil)])) ∧
    (mutate (findBuilder .sync "users"
        ⟨.cons "age" (.pdict (.cons "$gt" (.pint 18) .nil)) .nil⟩)
      ⟨some (.cons "$set" (.pdict (.cons "name" (.pstr "Sam") .nil)) .nil)⟩
      (.error "network down") =
        (.error "network down",
          ⟨some (.cons "$set" (.pdict (.cons "name" (.pstr "Sam") .nil)) .nil)⟩,
          [.update_many "users"
            (.cons "age" (.pdict (.cons "$gt" (.pint 18) .nil)) .nil)
            (.cons "$set" (.pdict (.cons "name" (.pstr "Sam") .nil)) .nil)])) ∧
    (amutate (findBuilder .sync "users"
        ⟨.cons "age" (.pdict (.cons "$gt" (.pint 18) .nil)) .nil⟩)
      ⟨some (.cons "$set" (.pdict (.cons "name" (.pstr "Sam") .nil)) .nil)⟩
      (.error "boom") =
        (.error "Use the mutate method instead for sync drivers",
          ⟨some (.cons "$set" (.pdict (.cons "name" (.pstr "Sam") .nil)) .nil)⟩,
          [])) :=
  ⟨c6_mutate_clears_context_on_success_only.1
      (findBuilder .sync "users"
        ⟨.cons "age" (.pdict (.cons "$gt" (.pint 18) .nil)) .nil⟩)
      ⟨some (.cons "$set" (.pdict (.cons "name" (.pstr "Sam") .nil)) .nil)⟩
      (.cons "$set" (.pdict (.cons "name" (.pstr "Sam") .nil)) .nil)
      ⟨3, 2⟩ rfl rfl,
   c6_mutate_clears_context_on_success_only.2.1
      (findBuilder .sync "users"
        ⟨.cons "age" (.pdict (.cons "$gt" (.pint 18) .nil)) .nil⟩)
      ⟨some (.cons "$set" (.pdict (.cons "name" (.pstr "Sam") .nil)) .nil)⟩
      (.cons "$set" (.pdict (.cons "name" (.pstr "Sam") .nil)) .nil)
      "network down" rfl rfl,
   c6_mutate_clears_context_on_success_only.2.2.2.2.2
      (findBuilder .sync "users"
        ⟨.cons "age" (.pdict (.cons "$gt" (.pint 18) .nil)) .nil⟩)
      ⟨some (.cons "$set" (.pdict (.cons "name" (.pstr "Sam") .nil)) .nil)⟩
      (.error "boom") rfl⟩

theorem nameKwargs_lookup_ne (i : IndexExpression) (k : String)
    (h : ¬ "name" = k) : (IndexExpression.nameKwargs i).lookup k = none := by
  unfold IndexExpression.nameKwargs
  split <;> simp [PyDict.lookup, h]

theorem ttlKwargs_lookup_ne (i : IndexExpression) (k : String)
    (h : ¬ "expireAfterSeconds" = k) :
    (IndexExpression.ttlKwargs i).lookup k = none := by
  unfold IndexExpression.ttlKwargs
  split
  · split <;> simp [PyDict.lookup, h]
  · simp [PyDict.lookup]

theorem sparseKwargs_lookup_ne (i : IndexExpression) (k : String)
    (h : ¬ "sparse" = k) : (IndexExpression.sparseKwargs i).lookup k = none := by
  unfold IndexExpression.sparseKwargs
  split <;> simp [PyDict.lookup, h]

theorem uniqueKwargs_lookup_ne (i : IndexExpression) (k : String)
    (h : ¬ "unique" = k) : (IndexExpression.uniqueKwargs i).lookup k = none := by
  unfold IndexExpression.uniqueKwargs
  split <;> simp [PyDict.lookup, h]

theorem hiddenKwargs_lookup_ne (i : IndexExpression) (k : String)
    (h : ¬ "hidden" = k) : (IndexExpression.hiddenKwargs i).lookup k = none := by
  unfold IndexExpression.hiddenKwargs
  split <;> simp [PyDict.lookup, h]

theorem collationKwargs_lookup_ne (i : IndexExpression) (k : String)
    (h : ¬ "collation" = k) :
    (IndexExpression.collationKwargs i).lookup k = none := by
  unfold IndexExpression.collationKwargs
  split <;> simp [PyDict.lookup, h]

theorem pfilterKwargs_lookup_ne (i : IndexExpression) (k : String)
    (h : ¬ "partialFilterExpression" = k) :
    (IndexExpression.pfilterKwargs i).lookup k = none := by
  unfold IndexExpression.pfilterKwargs
  split <;> simp [PyDict.lookup, h]

theorem ttlKwargs_dropped (i : IndexExpression) (s : Rat)
    (hs : i.expires_after_seconds = some s)
    (ht : i.index_type = some .TEXT ∨ i.index_type = some .HASHED) :
    IndexExpression.ttlKwargs i = .nil := by
  unfold IndexExpression.ttlKwargs
  rw [hs]
  simp [ht]

theorem ttlKwargs_kept (i : IndexExpression) (s : Rat)
    (hs : i.expires_after_seconds = some s)
    (ht : ¬ (i.index_type = some .TEXT ∨ i.index_type = some .HASHED)) :
    IndexExpression.ttlKwargs i =
      .cons "expireAfterSeconds" (.pfloat s) .nil := by
  unfold IndexExpression.ttlKwargs
  rw [hs]
  simp [ht]

/-- C7: for every index expression with a TTL configured, `build_kwargs()`
omits the `expireAfterSeconds` key entirely (without raising) when the index
type is `TEXT` or `HASHED`, and includes `expireAfterSeconds` equal to the
configured seconds when the index type is unset, `2d`, or `2dsphere`. -/
theorem c7_ttl_dropped_for_text_and_hashed (i : IndexExpression) (s : Rat)
    (hs : i.expires_after_seconds = some s) :
    ((i.index_type = some .TEXT ∨ i.index_type = some .HASHED) →
      (IndexExpression.build_kwargs i).lookup "expireAfterSeconds" = none) ∧
    ((i.index_type = none ∨ i.index_type = some .TWO_DIMENSIONAL ∨
        i.index_type = some .TWO_DIMENSIONAL_SPHERE) →
      (IndexExpression.build_kwargs i).lookup "expireAfterSeconds" =
        some (.pfloat s)) := by
  constructor
  · intro ht
    simp [IndexExpression.build_kwargs, PyDict.lookup_append,
      nameKwargs_lookup_ne i "expireAfterSeconds" (by decide),
      ttlKwargs_dropped i s hs ht,
      sparseKwargs_lookup_ne i "expireAfterSeconds" (by decide),
      uniqueKwargs_lookup_ne i "expireAfterSeconds" (by decide),
      hiddenKwargs_lookup_ne i "expireAfterSeconds" (by decide),
      collationKwargs_lookup_ne i "expireAfterSeconds" (by decide),
      pfilterKwargs_lookup_ne i "expireAfterSeconds" (by decide), PyDict.lookup]
  · intro ht
    have hne : ¬ (i.index_type = some .TEXT ∨ i.index_type = some .HASHED) := by
      rcases ht with h | h | h <;> rw [h] <;> decide
    simp [IndexExpression.build_kwargs, PyDict.lookup_append,
      nameKwargs_lookup_ne i "expireAfterSeconds" (by decide),
      ttlKwargs_kept i s hs hne, PyDict.lookup]

/-- Witness for the C7 theorem: `use_ttl(3600)` plus `use_index_type(TEXT)`
drops `expireAfterSeconds` from `build_kwargs()`, while `use_ttl(3600)` with
no index type keeps `expireAfterSeconds: 3600`. -/
theorem c7_ttl_witness :
    (IndexExpression.build_kwargs
        (((IndexExpressionBuilder.init "test_field").use_ttl 3600).use_index_type
          .TEXT).build_index).lookup "expireAfterSeconds" = none ∧
    (IndexExpression.build_kwargs
        ((IndexExpressionBuilder.init "test_field").use_ttl 3600).build_index).lookup
      "expireAfterSeconds" = some (.pfloat 3600) :=
  ⟨(c7_ttl_dropped_for_text_and_hashed
      (((IndexExpressionBuilder.init "test_field").use_ttl 3600).use_index_type
        .TEXT).build_index 3600 rfl).1 (Or.inl rfl),
   (c7_ttl_dropped_for_text_and_hashed
      ((IndexExpressionBuilder.init "test_field").use_ttl 3600).build_index
      3600 rfl).2 (Or.inl rfl)⟩

theorem collationKwargs_default (i : IndexExpression)
    (hst : i.collation_strength = none) (hloc : i.collation_locale = "en") :
    IndexExpression.collationKwargs i =
      .cons "collation" (.pdict (.cons "locale" (.pstr "en") .nil)) .nil := by
  unfold IndexExpression.collationKwargs
  rw [hst, hloc]
  simp [PyDict.append]

theorem collationKwargs_nonempty_locale (i : IndexExpression)
    (hloc : i.collation_locale ≠ "") :
    ((IndexExpression.collationKwargs i).lookup "collation").isSome = true := by
  unfold IndexExpression.collationKwargs
  rw [if_pos (Or.inr hloc)]
  simp [PyDict.lookup]

/-- C10: an index expression constructed without any collation customization
(strength unset, locale left at its default `"en"`) still gets a collation
entry `{"locale": "en"}` in `build_kwargs()`; more generally the collation
block is emitted for every index whose locale string is non-empty. -/
theorem c10_default_collation_always_emitted :
    (∀ i : IndexExpression, i.collation_strength = none →
      i.collation_locale = "en" →
      (IndexExpression.build_kwargs i).lookup "collation" =
        some (.pdict (.cons "locale" (.pstr "en") .nil))) ∧
    (∀ i : IndexExpression, i.collation_locale ≠ "" →
      ((IndexExpression.build_kwargs i).lookup "collation").isSome = true) := by
  constructor
  · intro i hst hloc
    simp [IndexExpression.build_kwargs, PyDict.lookup_append,
      nameKwargs_lookup_ne i "collation" (by decide),
      ttlKwargs_lookup_ne i "collation" (by decide),
      sparseKwargs_lookup_ne i "collation" (by decide),
      uniqueKwargs_lookup_ne i "collation" (by decide),
      hiddenKwargs_lookup_ne i "collation" (by decide),
      collationKwargs_default i hst hloc, PyDict.lookup]
  · intro i hloc
    obtain ⟨v, hv⟩ := Option.isSome_iff_exists.mp
      (collationKwargs_nonempty_locale i hloc)
    simp [IndexExpression.build_kwargs, PyDict.lookup_append,
      nameKwargs_lookup_ne i "collation" (by decide),
      ttlKwargs_lookup_ne i "collation" (by decide),
      sparseKwargs_lookup_ne i "collation" (by decide),
      uniqueKwargs_lookup_ne i "collation" (by decide),
      hiddenKwargs_lookup_ne i "collation" (by decide), hv]

/-- Witness for the C10 theorem: a plain ascending index on `score` with no
collation customization still carries `collation: {"locale": "en"}`. -/
theorem c10_default_collation_witness :
    (IndexExpression.build_kwargs
        (IndexExpressionBuilder.init "score").build_index).lookup "collation" =
      some (.pdict (.cons "locale" (.pstr "en") .nil)) ∧
    ((IndexExpression.build_kwargs
        (IndexExpressionBuilder.init "score").build_index).lookup
      "collation").isSome = true :=
  ⟨c10_default_collation_always_emitted.1
      (IndexExpressionBuilder.init "score").build_index rfl rfl,
   c10_default_collation_always_emitted.2
      (IndexExpressionBuilder.init "score").build_index (by decide)⟩

/-- Counterexample to C8 as stated: equality and hash are NOT both derived
from the full serialized state.  A `TEXT` index on `title` built ascending
and the same index built descending have identical serialized state
(`serialize()` ignores the sort order once an index type is set, and
`build_kwargs()` never contains it), so `__eq__` holds — yet the tuples
fed to `hash()` differ in the sort-order component, so the hashes differ
and a set keeps both elements instead of deduplicating them. -/
theorem c8_counterexample_hash_not_from_serialized_state :
    ({ field_name := "title", index_type := some .TEXT } : IndexExpression).serialize =
      ({ field_name := "title", index_type := some .TEXT,
         sort_order := .DESCENDING } : IndexExpression).serialize ∧
    ({ field_name := "title", index_type := some .TEXT } : IndexExpression).build_kwargs =
      ({ field_name := "title", index_type := some .TEXT,
         sort_order := .DESCENDING } : IndexExpression).build_kwargs ∧
    ({ field_name := "title", index_type := some .TEXT } : IndexExpression).eqB
      { field_name := "title", index_type := some .TEXT,
        sort_order := .DESCENDING } = true ∧
    ({ field_name := "title", index_type := some .TEXT } : IndexExpression).hashKey ≠
      ({ field_name := "title", index_type := some .TEXT,
         sort_order := .DESCENDING } : IndexExpression).hashKey ∧
    (pySetInsert (pySetInsert [] { field_name := "title", index_type := some .TEXT })
      { field_name := "title", index_type := some .TEXT,
        sort_order := .DESCENDING }).length = 2 :=
  ⟨rfl, rfl, by decide, by decide, by decide⟩

/-- C8 (amended): two index expressions built with identical raw
configuration — same field name, index type, sort order and modifiers, with
the partial filter being the same object or absent — compare equal, have
equal hash tuples, and inserting both into a set yields exactly one element;
their build kwargs and serialized forms agree as well (equality is derived
from the serialized state, while the hash is derived from the raw
configuration tuple). -/
theorem c8_identical_config_equal_hash_dedup (a b : IndexExpression)
    (h : a = b) :
    a.eqB b = true ∧ a.hashKey = b.hashKey ∧
    pySetInsert (pySetInsert [] a) b = [a] ∧
    a.build_kwargs = b.build_kwargs ∧ a.serialize = b.serialize := by
  subst h
  refine ⟨?_, rfl, ?_, rfl, rfl⟩
  · simp [IndexExpression.eqB]
  · simp [pySetInsert, IndexExpression.eqB]

/-- Witness for the amended C8 theorem: a unique index on `email` built
twice from identical configuration compares equal to itself and registers
once in a set. -/
theorem c8_identical_config_witness :
    (((IndexExpressionBuilder.init "email").use_unique true).build_index).eqB
        (((IndexExpressionBuilder.init "email").use_unique true).build_index) =
      true ∧
    pySetInsert
        (pySetInsert []
          (((IndexExpressionBuilder.init "email").use_unique true).build_index))
        (((IndexExpressionBuilder.init "email").use_unique true).build_index) =
      [((IndexExpressionBuilder.init "email").use_unique true).build_index] :=
  ⟨(c8_identical_config_equal_hash_dedup
      (((IndexExpressionBuilder.init "email").use_unique true).build_index)
      (((IndexExpressionBuilder.init "email").use_unique true).build_index)
      rfl).1,
   (c8_identical_config_equal_hash_dedup
      (((IndexExpressionBuilder.init "email").use_unique true).build_index)
      (((IndexExpressionBuilder.init "email").use_unique true).build_index)
      rfl).2.2.1⟩

theorem restoreValue_normalizeValue : ∀ v : PyVal,
    restoreValue (normalizeValue v) = some (normalizeValue v)
  | .pint _ => rfl
  | .pfloat _ => rfl
  | .pbool _ => rfl
  | .pstr _ => rfl
  | .pdate _ => rfl
  | .pdatetime _ _ => rfl
  | .puuid _ => rfl
  | .pnone => rfl
  | .plist _ => rfl
  | .pdict _ => rfl
  | .pobj _ _ => rfl

mutual

/-- Restoring a document that has already been normalized gives it back
unchanged: after `replace_unserializable_fields` no value of a registered
type remains in any position the restore traversal dispatches on (dates have
become datetimes and UUIDs strings, and neither `datetime` nor `str` is a
key of `HANDLER_MAPPING`), so `restore_unserializable_fields` is the
identity there — it does not invert the normalization. -/
theorem restore_replace_dict : ∀ d : PyDict,
    restore_unserializable_fields (replace_unserializable_fields d) =
      some (replace_unserializable_fields d)
  | .nil => rfl
  | .cons k v rest => by
    simp only [replace_unserializable_fields, restore_unserializable_fields]
    rw [restore_replace_entry v, restore_replace_dict rest]
    rfl

theorem restore_replace_entry : ∀ v : PyVal,
    restoreEntryValue (replaceEntryValue v) = some (replaceEntryValue v)
  | .pdict d => by
    simp only [replaceEntryValue, restoreEntryValue]
    rw [restore_replace_dict d]
    rfl
  | .plist xs => by
    simp only [replaceEntryValue, restoreEntryValue]
    rw [restore_replace_list xs]
    rfl
  | .pint _ => rfl
  | .pfloat _ => rfl
  | .pbool _ => rfl
  | .pstr _ => rfl
  | .pdate _ => rfl
  | .pdatetime _ _ => rfl
  | .puuid _ => rfl
  | .pnone => rfl
  | .pobj _ _ => rfl

theorem restore_replace_list : ∀ xs : PyList,
    restoreListElems (replaceListElems xs) = some (replaceListElems xs)
  | .nil => rfl
  | .cons v rest => by
    simp only [replaceListElems, restoreListElems]
    rw [restoreValue_normalizeValue v, restore_replace_list rest]
    rfl

end

/-- Counterexample to C9 as stated: the document-level normalize/restore
pair is not a round trip.  A document holding a calendar date is normalized
to hold the datetime at midnight; restoring the stored document leaves that
datetime untouched (its exact type is not registered in `HANDLER_MAPPING`),
so the restored document differs from the original. -/
theorem c9_counterexample_document_roundtrip_fails :
    replace_unserializable_fields (.cons "created_at" (.pdate 739252) .nil) =
      .cons "created_at" (.pdatetime 739252 0) .nil ∧
    restore_unserializable_fields (.cons "created_at" (.pdatetime 739252 0) .nil) =
      some (.cons "created_at" (.pdatetime 739252 0) .nil) ∧
    (.cons "created_at" (.pdatetime 739252 0) .nil : PyDict) ≠
      .cons "created_at" (.pdate 739252) .nil :=
  ⟨rfl, rfl, by decide⟩

/-- C9 (amended): each registered serializer is inverted by its matching
deserializer (a date serialized and deserialized returns the original date,
and likewise a UUID), and a value whose type is not recognized during
restoration is left untouched; but the document-level normalize/restore pair
is not reversible — restoring a normalized document returns it unchanged
(dates stay datetimes and UUIDs stay strings), because the stored wire types
are not registered in the handler mapping. -/
theorem c9_serializer_roundtrip_and_restore_identity :
    (∀ d, (DateSerializer.serialize (.pdate d)).bind DateSerializer.deserialize =
      some (.pdate d)) ∧
    (∀ n, (UUIDSerializer.serialize (.puuid n)).bind UUIDSerializer.deserialize =
      some (.puuid n)) ∧
    (∀ n, restoreValue (.pint n) = some (.pint n)) ∧
    (∀ q, restoreValue (.pfloat q) = some (.pfloat q)) ∧
    (∀ b, restoreValue (.pbool b) = some (.pbool b)) ∧
    (∀ s, restoreValue (.pstr s) = some (.pstr s)) ∧
    (∀ d t, restoreValue (.pdatetime d t) = some (.pdatetime d t)) ∧
    (restoreValue .pnone = some .pnone) ∧
    (∀ xs, restoreValue (.plist xs) = some (.plist xs)) ∧
    (∀ e, restoreValue (.pdict e) = some (.pdict e)) ∧
    (∀ n f, restoreValue (.pobj n f) = some (.pobj n f)) ∧
    (∀ doc, restore_unserializable_fields (replace_unserializable_fields doc) =
      some (replace_unserializable_fields doc)) :=
  ⟨fun _ => rfl,
   fun n => by
     simp [UUIDSerializer.serialize, UUIDSerializer.deserialize,
       Option.bind, uuidParse_uuidStr],
   fun _ => rfl, fun _ => rfl, fun _ => rfl, fun _ => rfl, fun _ _ => rfl,
   rfl, fun _ => rfl, fun _ => rfl, fun _ _ => rfl,
   restore_replace_dict⟩
